import Mathlib

/-!
Shallow embedding of the grid simulation engine of `hex_plant_simulator`.

Machine floats (`f64`) are embedded as rationals (`ℚ`); no claim below
depends on floating-point rounding.  Fallible operations (Rust panics,
in particular `f64::clamp` with a lower bound above the upper bound)
are embedded as `Option`-valued functions where `none` marks a panic.

Source files embedded here:
  * `src/map/tile/neighbor.rs`                  (grid addressing)
  * `src/map/tile/simulation/mod.rs`            (tile transition)
  * `src/map/tile/simulation/plant/mod.rs`      (plant transition)
  * `src/map/tile/simulation/plant/state.rs`    (plant state machine)
  * `src/map/tile/simulation/plant/spread.rs`   (spread protocol states)
  * `src/map/tile/simulation/plant/bridge/*.rs` (bridges)
  * `src/map/tile/simulation/plant/bulk/*.rs`   (bulks)
  * `src/map/settings/**.rs`                    (settings tree)
  * `src/map/sun/state.rs`, `src/map/sun/intensity/*.rs` (sun model)
  * `src/map/mod.rs`                            (tile half of `Map::step`)
-/

namespace HexPlant

/-- The direction of a neighbor, from
`src/map/tile/simulation/plant/neighbor.rs` (`NeighborType`, re-exported
to the simulation code as `NeighborDirection`). -/
inductive NeighborDirection where
  | Right
  | UpRight
  | UpLeft
  | Left
  | DownLeft
  | DownRight
  deriving DecidableEq, Repr

namespace NeighborDirection

/-- A unique id for the neighbor direction which serves as a priority for
acting on a neighbor, from `plant/neighbor.rs`. -/
def id : NeighborDirection → Nat
  | .Right => 2
  | .UpRight => 4
  | .UpLeft => 5
  | .Left => 3
  | .DownLeft => 1
  | .DownRight => 0

/-- Modelled from the spec: `NeighborDirection::opposite` is called by
`Plant::spread_resolve` but its definition is not among the source files;
the spec's mirrored-bridge description fixes it as the geometric opposite
(`Right ↔ Left`, `UpRight ↔ DownLeft`, `UpLeft ↔ DownRight`). -/
def opposite : NeighborDirection → NeighborDirection
  | .Right => .Left
  | .UpRight => .DownLeft
  | .UpLeft => .DownRight
  | .Left => .Right
  | .DownLeft => .UpRight
  | .DownRight => .UpLeft

/-- Modelled from the spec: `NeighborDirection::collection()` is iterated
by the simulation code but its definition is not among the source files;
it lists each of the six directions once. -/
def collection : List NeighborDirection :=
  [.Right, .UpRight, .UpLeft, .Left, .DownLeft, .DownRight]

end NeighborDirection

/-! ## Settings (`src/map/settings/**.rs`) -/

/-- Transparency settings, from `src/map/settings/transparency.rs`.  The
extra `plant` knob is the legacy flat `transparency_plant` field read by
`bulk/ripe_seed.rs`. -/
structure TransparencySettings where
  base : ℚ
  log : ℚ
  sugar_bulb : ℚ
  leaf : ℚ
  seed : ℚ
  plant : ℚ
  deriving DecidableEq, Repr

/-- Base build cost of bridges, from `settings/energy/base/bridge.rs`. -/
structure EnergyBaseBridge where
  log : ℚ
  branch : ℚ
  deriving DecidableEq, Repr

/-- Modelled from the spec: the file `settings/energy/base/bulk.rs`
(base build cost per bulk kind, read as `energy.base.bulk.*`) is not
among the source files; per the spec it is a flat struct of numeric
knobs, one per bulk kind. -/
structure EnergyBaseBulk where
  log : ℚ
  sugar_bulb : ℚ
  leaf : ℚ
  seed : ℚ
  deriving DecidableEq, Repr

/-- Base build cost settings, from `settings/energy/base/mod.rs`. -/
structure EnergyBase where
  bridge : EnergyBaseBridge
  bulk : EnergyBaseBulk
  deriving DecidableEq, Repr

/-- Production cost settings, from `settings/energy/production.rs`. -/
structure EnergyProduction where
  leaf : ℚ
  deriving DecidableEq, Repr

/-- Storage cost factors per bulk kind, from
`settings/energy/storage/energy.rs`. -/
structure EnergyStorageEnergy where
  log : ℚ
  sugar_bulb : ℚ
  leaf : ℚ
  seed : ℚ
  deriving DecidableEq, Repr

/-- Storage cost settings, from `settings/energy/storage/mod.rs`. -/
structure EnergyStorage where
  energy : EnergyStorageEnergy
  deriving DecidableEq, Repr

/-- Transfer-capacity cost factors per bridge kind, from
`settings/energy/transfer/energy.rs`. -/
structure EnergyTransferEnergy where
  log : ℚ
  branch : ℚ
  deriving DecidableEq, Repr

/-- Transfer cost settings, from `settings/energy/transfer/mod.rs`. -/
structure EnergyTransfer where
  energy : EnergyTransferEnergy
  deriving DecidableEq, Repr

/-- Running cost factors per bulk kind, from
`settings/energy/running/bulk.rs`. -/
structure EnergyRunningBulk where
  log : ℚ
  sugar_bulb : ℚ
  leaf : ℚ
  seed : ℚ
  deriving DecidableEq, Repr

/-- Running cost factors per bridge kind, from
`settings/energy/running/bridge.rs`. -/
structure EnergyRunningBridge where
  log : ℚ
  branch : ℚ
  deriving DecidableEq, Repr

/-- Running cost settings, from `settings/energy/running/mod.rs`. -/
structure EnergyRunning where
  bulk : EnergyRunningBulk
  bridge : EnergyRunningBridge
  deriving DecidableEq, Repr

/-- Energy cost settings, from `settings/energy/mod.rs`. -/
structure EnergySettings where
  base : EnergyBase
  production : EnergyProduction
  storage : EnergyStorage
  transfer : EnergyTransfer
  running : EnergyRunning
  deriving DecidableEq, Repr

/-- All basic settings for a map, from `settings/mod.rs`. -/
structure Settings where
  transparency : TransparencySettings
  energy : EnergySettings
  deriving DecidableEq, Repr

/-- A settings value with every knob zero, used as the base of concrete
witnesses. -/
def Settings.zero : Settings :=
  { transparency := ⟨0, 0, 0, 0, 0, 0⟩
    energy :=
      { base := ⟨⟨0, 0⟩, ⟨0, 0, 0, 0⟩⟩
        production := ⟨0⟩
        storage := ⟨⟨0, 0, 0, 0⟩⟩
        transfer := ⟨⟨0, 0⟩⟩
        running := ⟨⟨0, 0, 0, 0⟩, ⟨0, 0⟩⟩ } }

/-! ## Bridges (`src/map/tile/simulation/plant/bridge/*.rs`) -/

/-- The type of bridge, from `bridge/mod.rs` (`BridgeType`); the `Log`
and `Branch` payload structs are empty. -/
inductive BridgeType where
  | Log
  | Branch
  deriving DecidableEq, Repr

/-- Which direction transfer is allowed, from `bridge/mod.rs`
(`TransferMode`). -/
inductive TransferMode where
  | Out
  | In
  | Open
  | Closed
  deriving DecidableEq, Repr

namespace TransferMode

/-- Gets the transfer mode for the other end of the bridge. -/
def get_opposite : TransferMode → TransferMode
  | .Out => .In
  | .In => .Out
  | .Open => .Open
  | .Closed => .Closed

/-- True if this plant can receive through this bridge. -/
def can_receive : TransferMode → Bool
  | .In => true
  | .Open => true
  | .Out => false
  | .Closed => false

/-- True if this plant can transmit through this bridge. -/
def can_transmit : TransferMode → Bool
  | .Out => true
  | .Open => true
  | .In => false
  | .Closed => false

end TransferMode

/-- A bridge connecting two plant tiles, from `bridge/mod.rs`. -/
structure Bridge where
  bridge : BridgeType
  exiting : Bool
  energy_capacity : ℚ
  energy_transfer : TransferMode
  deriving DecidableEq, Repr

namespace BridgeType

/-- Energy build cost of energy transfer for a bridge, from
`bridge/log.rs` (linear) and `bridge/branch.rs` (quadratic). -/
def get_energy_cost_transfer_energy (b : BridgeType) (s : Settings) (capacity : ℚ) : ℚ :=
  match b with
  | .Log => s.energy.transfer.energy.log * capacity
  | .Branch => s.energy.transfer.energy.branch * capacity * capacity

/-- Energy cost factor of running a bridge. -/
def get_energy_cost_factor_run (b : BridgeType) (s : Settings) : ℚ :=
  match b with
  | .Log => s.energy.running.bridge.log
  | .Branch => s.energy.running.bridge.branch

/-- Base energy cost of building a new bridge, without transfer costs. -/
def get_energy_cost_build_base (b : BridgeType) (s : Settings) : ℚ :=
  match b with
  | .Log => s.energy.base.bridge.log
  | .Branch => s.energy.base.bridge.branch

end BridgeType

namespace Bridge

/-- Gets the other end of the bridge, from `bridge/mod.rs`. -/
def get_opposite (b : Bridge) : Bridge :=
  { bridge := b.bridge
    exiting := !b.exiting
    energy_capacity := b.energy_capacity
    energy_transfer := b.energy_transfer.get_opposite }

/-- Gets the energy cost of building a new bridge. -/
def get_energy_cost_build (b : Bridge) (s : Settings) : ℚ :=
  b.bridge.get_energy_cost_build_base s
    + b.bridge.get_energy_cost_transfer_energy s b.energy_capacity

/-- Gets the energy cost of running a bridge. -/
def get_energy_cost_run (b : Bridge) (s : Settings) : ℚ :=
  b.bridge.get_energy_cost_factor_run s * b.get_energy_cost_build s

end Bridge

/-- All bridges for a single plant tile, from `bridge/mod.rs`
(`BridgeSet`). -/
structure BridgeSet where
  right : Option Bridge
  up_right : Option Bridge
  up_left : Option Bridge
  left : Option Bridge
  down_left : Option Bridge
  down_right : Option Bridge
  deriving DecidableEq, Repr

namespace BridgeSet

/-- The empty bridge set. -/
def empty : BridgeSet := ⟨none, none, none, none, none, none⟩

/-- Gets the bridge in the given direction. -/
def get (b : BridgeSet) (direction : NeighborDirection) : Option Bridge :=
  match direction with
  | .Right => b.right
  | .UpRight => b.up_right
  | .UpLeft => b.up_left
  | .Left => b.left
  | .DownLeft => b.down_left
  | .DownRight => b.down_right

/-- Functional update of the bridge in the given direction (the embedding
of writing through `BridgeSet::get_mut`). -/
def set (b : BridgeSet) (direction : NeighborDirection) (v : Option Bridge) : BridgeSet :=
  match direction with
  | .Right => { b with right := v }
  | .UpRight => { b with up_right := v }
  | .UpLeft => { b with up_left := v }
  | .Left => { b with left := v }
  | .DownLeft => { b with down_left := v }
  | .DownRight => { b with down_right := v }

/-- Iterates through all the bridges, from `BridgeSet::iter` (field order
right, up-right, up-left, left, down-left, down-right, skipping empty
slots). -/
def iter (b : BridgeSet) : List Bridge :=
  [b.right, b.up_right, b.up_left, b.left, b.down_left, b.down_right].filterMap (fun x => x)

end BridgeSet

/-! ## Bulks (`src/map/tile/simulation/plant/bulk/*.rs`) -/

/-- The ambient (non-plant) state of a tile: transparency and light
level (`TileData` in the tile module). -/
structure TileData where
  transparency : ℚ
  light : ℚ
  deriving DecidableEq, Repr

/-- The bulk of a plant tile, from `bulk/mod.rs`; only `Leaf` carries a
payload (its light absorption). -/
inductive Bulk where
  | Log
  | SugarBulb
  | Leaf (absorption : ℚ)
  | Seed
  | RipeSeed
  deriving DecidableEq, Repr

namespace Bulk

/-- Transparency per bulk kind, from the `get_transparency` methods of
`bulk/*.rs` (`ripe_seed.rs` reads the legacy flat `transparency_plant`
knob, embedded as `transparency.plant`). -/
def get_transparency (b : Bulk) (s : Settings) : ℚ :=
  match b with
  | .Log => s.transparency.log
  | .SugarBulb => s.transparency.sugar_bulb
  | .Leaf absorption => s.transparency.leaf * (1 - absorption)
  | .Seed => s.transparency.seed
  | .RipeSeed => s.transparency.plant

/-- Energy cost of building energy storage, from the
`get_energy_cost_storage_energy` methods of `bulk/*.rs` (linear in the
capacity for `Log`, `SugarBulb` and `Seed`, quadratic for `Leaf`).
`RipeSeed` defines no cost methods in the source; its costs are zero. -/
def get_energy_cost_storage_energy (b : Bulk) (s : Settings) (capacity : ℚ) : ℚ :=
  match b with
  | .Log => s.energy.storage.energy.log * capacity
  | .SugarBulb => s.energy.storage.energy.sugar_bulb * capacity
  | .Leaf _ => s.energy.storage.energy.leaf * capacity * capacity
  | .Seed => s.energy.storage.energy.seed * capacity
  | .RipeSeed => 0

/-- Energy cost factor of running, from the running-cost methods of
`bulk/*.rs`. -/
def get_energy_cost_factor_run (b : Bulk) (s : Settings) : ℚ :=
  match b with
  | .Log => s.energy.running.bulk.log
  | .SugarBulb => s.energy.running.bulk.sugar_bulb
  | .Leaf _ => s.energy.running.bulk.leaf
  | .Seed => s.energy.running.bulk.seed
  | .RipeSeed => 0

/-- Base energy cost of building, from the base-build-cost methods of
`bulk/*.rs`; a leaf additionally pays `production.leaf / (1 − absorption)`
for its production capacity. -/
def get_energy_cost_build_base (b : Bulk) (s : Settings) : ℚ :=
  match b with
  | .Log => s.energy.base.bulk.log
  | .SugarBulb => s.energy.base.bulk.sugar_bulb
  | .Leaf absorption => s.energy.base.bulk.leaf + s.energy.production.leaf / (1 - absorption)
  | .Seed => s.energy.base.bulk.seed
  | .RipeSeed => 0

/-- Energy gained this round, from the `get_energy_gain` methods of
`bulk/*.rs`: only a leaf produces energy, `tile.light × absorption`. -/
def get_energy_gain (b : Bulk) (_s : Settings) (tile : TileData) : ℚ :=
  match b with
  | .Leaf absorption => tile.light * absorption
  | _ => 0

end Bulk

/-! ## Plants (`src/map/tile/simulation/plant/mod.rs`, `spread.rs`) -/

mutual

/-- A single plant tile, from `plant/mod.rs` (`Plant`). -/
inductive Plant where
  | mk
    (bulk : Bulk)
    (bridges : BridgeSet)
    (age : Nat)
    (cum_age : Nat)
    (alive : Bool)
    (energy : ℚ)
    (energy_capacity : ℚ)
    (energy_reserve : ℚ)
    (spread : Spread)

/-- The state of spreading a plant tile, from `plant/spread.rs` as used
by `plant/mod.rs` and `plant/state.rs`: `Trying` holds the offspring,
the allocated energy and the direction (tuple slots 0, 1, 2 of the
boxed payload); `Waiting` keeps only the energy and direction (slots
0 and 1). -/
inductive Spread where
  | Nothing
  | Trying (offspring : Plant) (energy : ℚ) (direction : NeighborDirection)
  | Waiting (energy : ℚ) (direction : NeighborDirection)

end

deriving instance DecidableEq for Plant

namespace Plant

/-- The bulk of the plant. -/
def bulk : Plant → Bulk
  | .mk b _ _ _ _ _ _ _ _ => b

/-- All bridges connecting to this tile. -/
def bridges : Plant → BridgeSet
  | .mk _ b _ _ _ _ _ _ _ => b

/-- The age of this plant tile in simulation steps. -/
def age : Plant → Nat
  | .mk _ _ a _ _ _ _ _ _ => a

/-- The cumulative age of this entire plant. -/
def cum_age : Plant → Nat
  | .mk _ _ _ a _ _ _ _ _ => a

/-- If the plant is currently alive. -/
def alive : Plant → Bool
  | .mk _ _ _ _ a _ _ _ _ => a

/-- The energy in this plant tile. -/
def energy : Plant → ℚ
  | .mk _ _ _ _ _ e _ _ _ => e

/-- The maximum amount of energy allowed. -/
def energy_capacity : Plant → ℚ
  | .mk _ _ _ _ _ _ e _ _ => e

/-- The reserve below which no energy may leave this tile. -/
def energy_reserve : Plant → ℚ
  | .mk _ _ _ _ _ _ _ e _ => e

/-- The spreading state of this plant. -/
def spread : Plant → Spread
  | .mk _ _ _ _ _ _ _ _ s => s

end Plant

/-- The state of plant growth in a tile, from `plant/state.rs`
(`State`): `Building` holds the plant to spread, the energy to use for
spreading and the direction the spread came from. -/
inductive Plant.State where
  | Nothing
  | Building (plant : Plant) (energy : ℚ) (direction : NeighborDirection)
  | Occupied (plant : Plant)
  deriving DecidableEq

/-- A single tile for the map: its plant state plus the ambient
transparency and light fields updated by `simulation/mod.rs`. -/
structure Tile where
  plant : Plant.State
  transparency : ℚ
  light : ℚ
  deriving DecidableEq

/-- A new empty tile (`Tile::new`): no plant, transparency 1, light 0. -/
def Tile.new : Tile := ⟨.Nothing, 1, 0⟩

/-- The ambient data of a tile. -/
def Tile.data (t : Tile) : TileData := ⟨t.transparency, t.light⟩

/-- All data for a single sun ray, from `src/map/sun/tile.rs`. -/
structure SunTile where
  intensity : ℚ
  deriving DecidableEq, Repr

/-- The reference to a neighbor tile, from `src/map/tile/neighbor.rs`
(`Neighbor`). -/
inductive Neighbor where
  | Empty
  | Tile (tile : HexPlant.Tile)
  | SunTile (tile : HexPlant.SunTile)
  deriving DecidableEq

/-- References for all the neighbors of a single tile, from
`src/map/tile/neighbor.rs` (`TileNeighbors`). -/
structure TileNeighbors where
  right : Neighbor
  up_right : Neighbor
  up_left : Neighbor
  left : Neighbor
  down_left : Neighbor
  down_right : Neighbor
  deriving DecidableEq

/-- Modelled from the spec: `TileNeighbors::get` is called throughout the
plant simulation but its definition is not among the source files; it
returns the field matching the direction. -/
def TileNeighbors.get (n : TileNeighbors) (direction : NeighborDirection) : Neighbor :=
  match direction with
  | .Right => n.right
  | .UpRight => n.up_right
  | .UpLeft => n.up_left
  | .Left => n.left
  | .DownLeft => n.down_left
  | .DownRight => n.down_right

/-! ## Plant simulation (`src/map/tile/simulation/plant/mod.rs`) -/

namespace Plant

/-- Gets the transparency of this plant. -/
def get_transparency (p : Plant) (s : Settings) : ℚ :=
  p.bulk.get_transparency s

/-- Gets the energy cost of building the bulk of this plant. -/
def get_bulk_energy_cost_build (p : Plant) (s : Settings) : ℚ :=
  p.bulk.get_energy_cost_build_base s
    + p.bulk.get_energy_cost_storage_energy s p.energy_capacity

/-- Gets the energy cost of running the bulk of this plant. -/
def get_bulk_energy_cost_run (p : Plant) (s : Settings) : ℚ :=
  p.get_bulk_energy_cost_build s * p.bulk.get_energy_cost_factor_run s

/-- Gets the energy cost of building this plant: the bulk cost plus half
of each attached bridge's build cost. -/
def get_energy_cost_build (p : Plant) (s : Settings) : ℚ :=
  p.get_bulk_energy_cost_build s
    + (p.bridges.iter.map (fun bridge => (1 : ℚ) / 2 * bridge.get_energy_cost_build s)).sum

/-- Gets the energy cost of running this plant: the bulk running cost
plus half of each attached bridge's running cost. -/
def get_energy_cost_run (p : Plant) (s : Settings) : ℚ :=
  p.get_bulk_energy_cost_run s
    + (p.bridges.iter.map (fun bridge => (1 : ℚ) / 2 * bridge.get_energy_cost_run s)).sum

/-- Gets the energy gained by this plant this round. -/
def get_energy_gain (p : Plant) (s : Settings) (tile : TileData) : ℚ :=
  p.bulk.get_energy_gain s tile

end Plant

/-- Rust's `f64::clamp(lo, hi)`: panics (here `none`) when the lower
bound exceeds the upper bound, otherwise clamps into `[lo, hi]`. -/
def rustClamp (x lo hi : ℚ) : Option ℚ :=
  if lo ≤ hi then some (max lo (min x hi)) else none

/-- Sequences a list of possibly-panicking results: `none` if any
element panicked. -/
def seqOption {α : Type} : List (Option α) → Option (List α)
  | [] => some []
  | none :: _ => none
  | some a :: rest => (seqOption rest).map (fun l => a :: l)

namespace Plant

/-- The body of the per-direction energy transfer inside
`Plant::get_energy_transfer`, computed against one bridge and the alive
occupied neighbor plant on its other end.  `none` marks the `clamp`
panic when the computed lower bound exceeds the upper bound. -/
def transferAmount (self : Plant) (bridge : Bridge) (other : Plant) : Option ℚ :=
  let self_energy := max ((self.energy - self.energy_reserve) / 6) 0
  let self_capacity := (self.energy_capacity - self.energy_reserve) / 6 - self_energy
  let neighbor_energy := max ((other.energy - other.energy_reserve) / 6) 0
  let neighbor_capacity := (other.energy_capacity - other.energy_reserve) / 6 - neighbor_energy
  rustClamp (neighbor_energy - self_energy)
    (if bridge.energy_transfer.can_transmit then
      -(min bridge.energy_capacity neighbor_capacity)
    else 0)
    (if bridge.energy_transfer.can_receive then
      min bridge.energy_capacity self_capacity
    else 0)

/-- The contribution of one direction to `Plant::get_energy_transfer`:
skipped directions (no bridge, or no alive occupied neighbor) contribute
zero, matching the `filter_map`. -/
def transfer_contrib (self : Plant) (neighbors : TileNeighbors)
    (dir : NeighborDirection) : Option ℚ :=
  match self.bridges.get dir with
  | none => some 0
  | some bridge =>
    match neighbors.get dir with
    | .Tile tile =>
      match tile.plant with
      | .Occupied plant =>
        if plant.alive then transferAmount self bridge plant else some 0
      | _ => some 0
    | _ => some 0

/-- Gets the energy transferred to or from this plant tile with its
neighbors (`Plant::get_energy_transfer`); `none` if any direction's
`clamp` panics. -/
def get_energy_transfer (self : Plant) (neighbors : TileNeighbors) : Option ℚ :=
  (seqOption (NeighborDirection.collection.map (self.transfer_contrib neighbors))).map List.sum

/-- Removes any bridge connected to a tile which is not occupied by an
alive plant (`Plant::remove_bridges`). -/
def remove_bridges (bridges : BridgeSet) (neighbors : TileNeighbors) : BridgeSet :=
  let keep : NeighborDirection → Option Bridge := fun dir =>
    match neighbors.get dir with
    | .Tile tile =>
      match tile.plant with
      | .Occupied plant => if plant.alive then bridges.get dir else none
      | _ => none
    | _ => none
  { right := keep .Right
    up_right := keep .UpRight
    up_left := keep .UpLeft
    left := keep .Left
    down_left := keep .DownLeft
    down_right := keep .DownRight }

/-- Resolves a spread action after waiting (`Plant::spread_resolve`):
returns the updated bridge set and the new energy of this plant.  The
spread succeeded iff the neighbor in the stored direction is `Building`
with the same stored direction and the offspring holds a bridge in the
opposite slot; then that bridge's opposite end is spliced in and the
allocated energy is not refunded, otherwise the energy is refunded. -/
def spread_resolve (bridges : BridgeSet) (direction : NeighborDirection)
    (energy self_energy : ℚ) (neighbors : TileNeighbors) : BridgeSet × ℚ :=
  match neighbors.get direction with
  | .Tile tile =>
    match tile.plant with
    | .Building plant _ build_dir =>
      if build_dir = direction then
        match (plant.bridges.get direction.opposite) with
        | some bridge => (bridges.set direction (some bridge.get_opposite), self_energy)
        | none => (bridges, self_energy + energy)
      else (bridges, self_energy + energy)
    | _ => (bridges, self_energy + energy)
  | _ => (bridges, self_energy + energy)

/-- Returns a mutated version of itself (`Plant::mutate`): the identity
hook for future genetic variation. -/
def mutate (p : Plant) (_s : Settings) : Plant := p

/-- Forwards the state of this plant to the next simulation step
(`Plant::forward`): `some none` is death, `some (some p)` is survival,
`none` is a panic inside the energy-transfer clamp. -/
def forward (self : Plant) (s : Settings) (tile : TileData)
    (neighbors : TileNeighbors) : Option (Option Plant) :=
  if !self.alive then some none
  else
    let bridges0 := remove_bridges self.bridges neighbors
    let step : Spread × BridgeSet × ℚ :=
      match self.spread with
      | .Nothing => (.Nothing, bridges0, self.energy)
      | .Trying _ e d => (.Waiting e d, bridges0, self.energy)
      | .Waiting e d =>
        let r := spread_resolve bridges0 d e self.energy neighbors
        (.Nothing, r.1, r.2)
    let spread := step.1
    let bridges := step.2.1
    let energy := step.2.2
    let cost_energy := self.get_energy_cost_run s
    let gain_energy := self.get_energy_gain s tile
    match self.get_energy_transfer neighbors with
    | none => none
    | some transfer_energy =>
      let new_energy := min (energy + gain_energy + transfer_energy - cost_energy)
        self.energy_capacity
      let new_alive := bridges.iter.any (fun bridge => !bridge.exiting) && decide (0 ≤ new_energy)
      some (some (.mk self.bulk bridges (self.age + 1) (self.cum_age + 1) new_alive
        new_energy self.energy_capacity self.energy_reserve spread))

end Plant

/-! ## Plant state machine (`src/map/tile/simulation/plant/state.rs`) -/

namespace Plant.State

/-- Gets the transparency of the plant in this tile (`State::get_transparency`). -/
def get_transparency (st : Plant.State) (s : Settings) : ℚ :=
  match st with
  | .Nothing => 1
  | .Building plant _ _ => plant.get_transparency s
  | .Occupied plant => plant.get_transparency s

/-- Rust's `Iterator::min_by_key` over spread candidates, keyed by the
direction id: the first minimal element is kept. -/
def minByDirId (l : List (Plant × ℚ × NeighborDirection)) :
    Option (Plant × ℚ × NeighborDirection) :=
  l.foldl
    (fun acc v =>
      match acc with
      | none => some v
      | some w => if v.2.2.id < w.2.2.id then some v else acc)
    none

/-- Sees if any neighbor is trying to spread here and mutates any
attempt at spreading (`State::try_spread`): among the neighbors whose
occupied plant holds `Trying` with a stored direction equal to the
direction from this tile to that neighbor, the one with the lowest
direction id becomes this tile's `Building` input. -/
def try_spread (s : Settings) (neighbors : TileNeighbors) : Plant.State :=
  let candidates := NeighborDirection.collection.filterMap fun dir =>
    match neighbors.get dir with
    | .Tile tile =>
      match tile.plant with
      | .Occupied plant =>
        match plant.spread with
        | .Trying offspring energy sdir =>
          if sdir = dir then some (offspring, energy, sdir) else none
        | _ => none
      | _ => none
    | _ => none
  match minByDirId candidates with
  | some (plant, energy, dir) => .Building (plant.mutate s) energy dir
  | none => .Nothing

/-- Attempts to build the plant on this tile (`State::try_build`): fails
if the mother plant is dead or missing or there is not enough energy;
the charged cost is the offspring's build cost plus an extra half of the
bridge toward the mother. -/
def try_build (s : Settings) (input : Plant × ℚ × NeighborDirection)
    (neighbors : TileNeighbors) : Plant.State :=
  match neighbors.get input.2.2 with
  | .Tile tile =>
    match tile.plant with
    | .Occupied plant =>
      if plant.alive then
        let new_plant := input.1
        let cost_energy := new_plant.get_energy_cost_build s
          + (match new_plant.bridges.get input.2.2 with
            | none => 0
            | some bridge => (1 : ℚ) / 2 * bridge.get_energy_cost_build s)
        let plant_energy := input.2.1 - cost_energy
        if plant_energy < 0 then .Nothing
        else
          .Occupied (.mk new_plant.bulk new_plant.bridges new_plant.age new_plant.cum_age
            new_plant.alive (min plant_energy new_plant.energy_capacity)
            new_plant.energy_capacity new_plant.energy_reserve new_plant.spread)
      else .Nothing
    | _ => .Nothing
  | _ => .Nothing

/-- Forwards the plant state to the next simulation step
(`State::forward`); the tile's own ambient data is passed through to
`Plant::forward`, and `none` marks a panic inside the plant step. -/
def forward (st : Plant.State) (s : Settings) (tile : TileData)
    (neighbors : TileNeighbors) : Option Plant.State :=
  match st with
  | .Nothing => some (try_spread s neighbors)
  | .Building plant energy direction => some (try_build s (plant, energy, direction) neighbors)
  | .Occupied plant =>
    match plant.forward s tile neighbors with
    | none => none
    | some none => some .Nothing
    | some (some p) => some (.Occupied p)

end Plant.State

/-! ## Tile transition (`src/map/tile/simulation/mod.rs`) -/

namespace Tile

/-- Calculates the next transparency of the tile
(`Tile::forward_transparency`). -/
def forward_transparency (t : Tile) (s : Settings) (_neighbors : TileNeighbors) : ℚ :=
  s.transparency.base * t.plant.get_transparency s

/-- Calculates the next light level of the tile (`Tile::forward_light`):
the average of the light received from the two upper neighbors, where a
tile neighbor passes `light × transparency`, a sun neighbor passes its
intensity and a missing neighbor passes nothing. -/
def forward_light (_t : Tile) (_s : Settings) (neighbors : TileNeighbors) : ℚ :=
  let light_right :=
    match neighbors.up_right with
    | .Empty => 0
    | .Tile tile => tile.light * tile.transparency
    | .SunTile tile => tile.intensity
  let light_left :=
    match neighbors.up_left with
    | .Empty => 0
    | .Tile tile => tile.light * tile.transparency
    | .SunTile tile => tile.intensity
  (1 : ℚ) / 2 * (light_right + light_left)

/-- Calculates the next state of the tile (`Tile::forward`); `none`
marks a panic inside the plant step.  The plant transition receives the
tile's own ambient data, per the signature of `Plant::forward`. -/
def forward (t : Tile) (s : Settings) (neighbors : TileNeighbors) : Option Tile :=
  match t.plant.forward s t.data neighbors with
  | none => none
  | some plant =>
    some
      { plant := plant
        transparency := t.forward_transparency s neighbors
        light := t.forward_light s neighbors }

end Tile

/-! ## Grid addressing (`src/map/tile/neighbor.rs`, `src/types`) -/

/-- An integer grid size (`types::ISize`). -/
structure ISize where
  w : Nat
  h : Nat
  deriving DecidableEq, Repr

/-- An integer index pair (`types::Index`). -/
structure Index where
  x : ℤ
  y : ℤ
  deriving DecidableEq, Repr

/-- A tile index position in the grid (`TilePos`). -/
structure TilePos where
  pos : Index
  deriving DecidableEq, Repr

/-- The tile position of a neighbor: inside or outside the grid
(`TilePosNeighbor`). -/
inductive TilePosNeighbor where
  | Valid (pos : TilePos)
  | Invalid (pos : TilePos)
  deriving DecidableEq, Repr

namespace TilePos

/-- Constructs a tile position from a list index (`TilePos::from_index`). -/
def from_index (index : Nat) (size : ISize) : TilePos :=
  let y : ℤ := (index / size.w : Nat)
  let x : ℤ := (index : ℤ) - y * (size.w : ℤ)
  ⟨⟨x, y⟩⟩

/-- The tile position right of this tile (`TilePos::right`). -/
def right (p : TilePos) (size : ISize) : TilePosNeighbor :=
  let y := p.pos.y
  let x := if p.pos.x = (size.w : ℤ) - 1 then 0 else p.pos.x + 1
  .Valid ⟨⟨x, y⟩⟩

/-- The tile position up-right of this tile (`TilePos::up_right`); the
column shift depends on the parity of the current column. -/
def up_right (p : TilePos) (size : ISize) : TilePosNeighbor :=
  let y := p.pos.y - 1
  let x := if p.pos.x % 2 = 0 then p.pos.x
    else if p.pos.x = (size.w : ℤ) - 1 then 0 else p.pos.x + 1
  if y = -1 then .Invalid ⟨⟨x, y⟩⟩ else .Valid ⟨⟨x, y⟩⟩

/-- The tile position up-left of this tile (`TilePos::up_left`). -/
def up_left (p : TilePos) (size : ISize) : TilePosNeighbor :=
  let y := p.pos.y - 1
  let x := if p.pos.x % 2 = 0 then
      if p.pos.x = 0 then (size.w : ℤ) - 1 else p.pos.x - 1
    else p.pos.x
  if y = -1 then .Invalid ⟨⟨x, y⟩⟩ else .Valid ⟨⟨x, y⟩⟩

/-- The tile position left of this tile (`TilePos::left`). -/
def left (p : TilePos) (size : ISize) : TilePosNeighbor :=
  let y := p.pos.y
  let x := if p.pos.x = 0 then (size.w : ℤ) - 1 else p.pos.x - 1
  .Valid ⟨⟨x, y⟩⟩

/-- The tile position down-left of this tile (`TilePos::down_left`). -/
def down_left (p : TilePos) (size : ISize) : TilePosNeighbor :=
  let y := p.pos.y + 1
  let x := if p.pos.x % 2 = 0 then
      if p.pos.x = 0 then (size.w : ℤ) - 1 else p.pos.x - 1
    else p.pos.x
  if y = (size.h : ℤ) then .Invalid ⟨⟨x, y⟩⟩ else .Valid ⟨⟨x, y⟩⟩

/-- The tile position down-right of this tile (`TilePos::down_right`). -/
def down_right (p : TilePos) (size : ISize) : TilePosNeighbor :=
  let y := p.pos.y + 1
  let x := if p.pos.x % 2 = 0 then p.pos.x
    else if p.pos.x = (size.w : ℤ) - 1 then 0 else p.pos.x + 1
  if y = (size.h : ℤ) then .Invalid ⟨⟨x, y⟩⟩ else .Valid ⟨⟨x, y⟩⟩

/-- Converts the tile position into an index in the tile list
(`TilePos::to_index`). -/
def to_index (p : TilePos) (size : ISize) : Nat :=
  (p.pos.y * (size.w : ℤ) + p.pos.x).toNat

end TilePos

/-- List lookup with the panic position replaced by a default tile: all
lookups performed by `Map::step` are in bounds for well-formed maps. -/
def getTile (tiles : List Tile) (i : Nat) : Tile :=
  tiles.getD i Tile.new

/-- Sun-tile lookup, defaulting to zero intensity. -/
def getSunTile (sun : List SunTile) (i : Nat) : SunTile :=
  sun.getD i ⟨0⟩

/-- Gets all the neighbors for a single tile (`TileNeighbors::new`):
in-grid positions give tile references, the upward out-of-grid rows give
the sun tile of the tile's own column — the source's `Invalid(_)` arm
binds nothing, so its `sun[pos.pos.x]` reads the outer `pos`, not the
parity-shifted neighbor position — and the other out-of-grid rows give
nothing. -/
def TileNeighbors.new (tiles : List Tile) (sun : List SunTile) (size : ISize)
    (pos : TilePos) : TileNeighbors :=
  let ofSide : TilePosNeighbor → Neighbor := fun r =>
    match r with
    | .Valid p => .Tile (getTile tiles (p.to_index size))
    | .Invalid _ => .Empty
  let ofUp : TilePosNeighbor → Neighbor := fun r =>
    match r with
    | .Valid p => .Tile (getTile tiles (p.to_index size))
    | .Invalid _ => .SunTile (getSunTile sun pos.pos.x.toNat)
  { right := ofSide (pos.right size)
    up_right := ofUp (pos.up_right size)
    up_left := ofUp (pos.up_left size)
    left := ofSide (pos.left size)
    down_left := ofSide (pos.down_left size)
    down_right := ofSide (pos.down_right size) }

/-! ## Sun model (`src/map/sun/state.rs`, `src/map/sun/intensity/mod.rs`) -/

/-- The sun intensity capability (`trait Intensity`): a pure function
from column and tick to a primary/secondary intensity pair, plus the
injected grid width.  Implementations (day cycle, year cycle and their
composite) are all pure functions of `(column, tick)`. -/
structure Intensity where
  get_intensity : Nat → Nat → ℚ × ℚ
  size : Nat

/-- Iterates the intensity over all columns (`Intensity::iter`). -/
def Intensity.iter (i : Intensity) (t : Nat) : List (ℚ × ℚ) :=
  (List.range i.size).map fun tile => i.get_intensity tile t

/-- The composite of a year model and a day model
(`IntensityYearDay::get_intensity`): the component-wise product. -/
def Intensity.yearDay (year day : Intensity) : Intensity :=
  { get_intensity := fun tile t =>
      ((year.get_intensity tile t).1 * (day.get_intensity tile t).1,
        (year.get_intensity tile t).2 * (day.get_intensity tile t).2)
    size := year.size }

/-- The current state of the sun, from `src/map/sun/state.rs`. -/
structure Sun.State where
  intensity : Intensity

/-- Constructs all the sun intensity tiles for the current simulation
step (`sun::State::get_tiles`): one tile per column whose value is the
primary plus the secondary intensity. -/
def Sun.State.get_tiles (st : Sun.State) (t : Nat) : List SunTile :=
  (st.intensity.iter t).map fun intensity => ⟨intensity.1 + intensity.2⟩

/-! ## The map (`src/map/mod.rs`) -/

/-- Describes the entire map.  The tiles are stored row first; the sun
tiles hold one intensity per column.  The tick counter stands for the
simulation time `t` passed to the sun model. -/
structure Map where
  tiles : List Tile
  sun_tiles : List SunTile
  sun : Sun.State
  size : ISize
  settings : Settings
  tick : Nat

namespace Map

/-- The transition of the tile at list index `index`, reading only the
previous tick's tile array and sun-tile array, from the closure inside
`Map::step` (`src/map/mod.rs` lines 56-73). -/
def stepAt (m : Map) (indexTile : Nat × Tile) : Option Tile :=
  indexTile.2.forward m.settings
    (TileNeighbors.new m.tiles m.sun_tiles m.size (TilePos.from_index indexTile.1 m.size))

/-- The new tile array of one tick, computed in forward index order over
the previous snapshot (`Map::step`'s `map` over `iter().enumerate()`). -/
def stepTilesFwd (m : Map) : List (Option Tile) :=
  m.tiles.enum.map m.stepAt

/-- The same tick computed with the tiles evaluated in reverse index
order (still reading only the previous snapshot), with the results put
back in index order. -/
def stepTilesRev (m : Map) : List (Option Tile) :=
  (m.tiles.enum.reverse.map m.stepAt).reverse

/-- The fully materialized new tile array (`none` if any tile's plant
step panicked). -/
def stepTiles (m : Map) : Option (List Tile) :=
  seqOption m.stepTilesFwd

/-- Steps the simulation once (`Map::step`).  The tile update embeds
`src/map/mod.rs` lines 56-73.  Modelled from the spec: the sun-tile
update of the current `Map` version is missing from the sources (the
stale `map/mod.rs` still manipulates a legacy `sun.position` field that
the checked-in `sun::State` no longer has, and the three-argument
`Map::new` called from `main.rs` does not exist in `map/mod.rs`); per
the spec the sun tiles are re-derived from the intensity model every
tick, which is `sun::State::get_tiles` at the new tick. -/
def step (m : Map) : Option Map :=
  match m.stepTiles with
  | none => none
  | some tiles =>
    some { m with
      tiles := tiles
      tick := m.tick + 1
      sun_tiles := m.sun.get_tiles (m.tick + 1) }

end Map

/-! ## Claim-side formulas and invariants -/

/-- A copy of a plant with a new energy value, the shape of the plant
produced by a successful `State::try_build`. -/
def Plant.withEnergy (p : Plant) (e : ℚ) : Plant :=
  .mk p.bulk p.bridges p.age p.cum_age p.alive e p.energy_capacity p.energy_reserve p.spread

/-- The building cost actually charged by `State::try_build`: the
offspring's full build cost (bulk plus half of every attached bridge)
plus an additional half of the bridge toward the mother. -/
def amendedBuildCost (s : Settings) (p : Plant) (dir : NeighborDirection) : ℚ :=
  p.get_energy_cost_build s
    + (match p.bridges.get dir with
      | none => 0
      | some bridge => (1 : ℚ) / 2 * bridge.get_energy_cost_build s)

/-- The building cost as the claim words it: the offspring's bulk build
cost plus the build cost of its bridge toward the mother. -/
def claimedBuildCost (s : Settings) (p : Plant) (dir : NeighborDirection) : ℚ :=
  p.get_bulk_energy_cost_build s
    + (match p.bridges.get dir with
      | none => 0
      | some bridge => bridge.get_energy_cost_build s)

/-- The energy invariants of a well-formed plant: the reserve and the
stored energy do not exceed the capacity. -/
def goodPlant (p : Plant) : Prop :=
  p.energy_reserve ≤ p.energy_capacity ∧ p.energy ≤ p.energy_capacity

/-- The light contributed by an upper neighbor position as the original
claim words it: the sun intensity of the neighbor position's (wrapped,
parity-shifted) column when the position lies above row 0, otherwise
the neighbor tile's `light × transparency`, both read from the previous
snapshot. -/
def claimLightFrom (tiles : List Tile) (sun : List SunTile) (size : ISize)
    (r : TilePosNeighbor) : ℚ :=
  match r with
  | .Invalid p => (getSunTile sun p.pos.x.toNat).intensity
  | .Valid p =>
    let t := getTile tiles (p.to_index size)
    t.light * t.transparency

/-- The light contributed by an upper neighbor position as the code
computes it: the sun intensity of the tile's own column when the
position lies above row 0 (the source's `Invalid(_)` arm reads
`sun[pos.pos.x]` with the outer `pos`), otherwise the neighbor tile's
`light × transparency`, both read from the previous snapshot. -/
def ownLightFrom (tiles : List Tile) (sun : List SunTile) (size : ISize) (own : TilePos)
    (r : TilePosNeighbor) : ℚ :=
  match r with
  | .Invalid _ => (getSunTile sun own.pos.x.toNat).intensity
  | .Valid p =>
    let t := getTile tiles (p.to_index size)
    t.light * t.transparency

/-- Whether the tile reached in the given direction does not hold an
alive occupied plant (the failure side of `State::try_build`). -/
def motherMissingOrDead (nb : TileNeighbors) (dir : NeighborDirection) : Prop :=
  match nb.get dir with
  | .Tile tile =>
    match tile.plant with
    | .Occupied mother => mother.alive = false
    | _ => True
  | _ => True

/-! ## Concrete instances for counterexamples and witnesses -/

/-- An inert settings/neighbor-free environment: all six neighbors empty. -/
def emptyNb : TileNeighbors := ⟨.Empty, .Empty, .Empty, .Empty, .Empty, .Empty⟩

/-- A dead plant carrying a pending spread (for the dead-plant claim). -/
def exPlantC10 : Plant :=
  .mk .Log BridgeSet.empty 4 7 false 5 10 0 (.Waiting 3 .Right)

/-- A live mother with no bridges, waiting on a spread to the right. -/
def exMotherC4 : Plant :=
  .mk .Log BridgeSet.empty 0 0 true 5 10 0 (.Waiting 3 .Right)

/-- An offspring template holding an exiting bridge back toward the
mother (slot `Left`). -/
def exOffC4 : Plant :=
  .mk .Log (BridgeSet.empty.set .Left (some ⟨.Log, true, 1, .Closed⟩)) 0 0 true 0 0 0 .Nothing

/-- Neighbors of the C4 mother: the tile to the right is `Building` with
stored direction `Right`, so the pending spread resolves successfully. -/
def exNbC4 : TileNeighbors :=
  { emptyNb with right := .Tile ⟨.Building exOffC4 0 .Right, 1, 0⟩ }

/-- An offspring template holding a bridge toward the mother (slot
`Left`, since the spec stores the mirrored direction). -/
def exOffC2 : Plant :=
  .mk .Log (BridgeSet.empty.set .Left (some ⟨.Log, false, 2, .Open⟩)) 0 0 true 0 0 0 .Nothing

/-- Neighbors of the C2 mother: the tile to the right is `Building` with
stored direction `Left = opposite(Right)`, the shape the claim calls
successful. -/
def exNbC2 : TileNeighbors :=
  { emptyNb with right := .Tile ⟨.Building exOffC2 0 .Left, 1, 0⟩ }

/-- Settings for the C3 counterexample: only the base build cost of a
branch bridge is non-zero. -/
def exSettingsC3 : Settings :=
  { Settings.zero with
    energy := { Settings.zero.energy with
      base := { Settings.zero.energy.base with bridge := ⟨0, 2⟩ } } }

/-- A C3 offspring: zero-cost log bulk, a zero-cost log bridge toward
the mother (slot `Right`) and an extra branch bridge (slot `Left`). -/
def exOffC3 : Plant :=
  .mk .Log
    ((BridgeSet.empty.set .Right (some ⟨.Log, false, 1, .Open⟩)).set .Left
      (some ⟨.Branch, false, 1, .Open⟩))
    0 0 true 0 10 0 .Nothing

/-- The C3 mother: an alive occupied plant. -/
def exMotherC3 : Plant :=
  .mk .Log (BridgeSet.empty.set .Left (some ⟨.Log, true, 1, .Open⟩)) 0 0 true 5 10 0 .Nothing

/-- Neighbors of the C3 building tile: the mother sits to the right. -/
def exNbC3 : TileNeighbors :=
  { emptyNb with right := .Tile ⟨.Occupied exMotherC3, 1, 0⟩ }

/-- A plant whose `energy_reserve` exceeds its `energy_capacity`, with
an open bridge to the right (the C8 panic input). -/
def exPlantC8 : Plant :=
  .mk .Log (BridgeSet.empty.set .Right (some ⟨.Log, false, 1, .Open⟩)) 0 0 true 0 6 12 .Nothing

/-- The C8 neighbor plant: the same degenerate reserve on the other side
of the bridge. -/
def exOtherC8 : Plant :=
  .mk .Log (BridgeSet.empty.set .Left (some ⟨.Log, true, 1, .Open⟩)) 0 0 true 0 6 12 .Nothing

/-- Neighbors of the C8 plant: an alive occupied plant to the right. -/
def exNbC8 : TileNeighbors :=
  { emptyNb with right := .Tile ⟨.Occupied exOtherC8, 1, 0⟩ }

/-- A well-formed plant with no bridges (the C8 witness input). -/
def exGoodPlantC8 : Plant :=
  .mk .Log BridgeSet.empty 0 0 true 5 10 0 .Nothing

/-- The two C5 plants joined by one open bridge of capacity 1. -/
def exBridgeC5 : Bridge := ⟨.Log, false, 1, .Open⟩

/-- The C5 sender: energy 10, reserve 1, capacity 13, bridge right. -/
def exAC5 : Plant :=
  .mk .Log (BridgeSet.empty.set .Right (some exBridgeC5)) 0 0 true 10 13 1 .Nothing

/-- The C5 receiver: energy 4, reserve 1, capacity 13, mirrored bridge
left. -/
def exBC5 : Plant :=
  .mk .Log (BridgeSet.empty.set .Left (some exBridgeC5.get_opposite)) 0 0 true 4 13 1 .Nothing

/-- Neighbors of the C5 sender: the receiver sits to the right. -/
def exNbAC5 : TileNeighbors := { emptyNb with right := .Tile ⟨.Occupied exBC5, 1, 0⟩ }

/-- Neighbors of the C5 receiver: the sender sits to the left. -/
def exNbBC5 : TileNeighbors := { emptyNb with left := .Tile ⟨.Occupied exAC5, 1, 0⟩ }

/-- A constant-zero sun intensity model over one column. -/
def exSunZero : Sun.State := ⟨⟨fun _ _ => (0, 0), 1⟩⟩

/-- A tick- and column-dependent sun intensity model over one column. -/
def exSunVar : Sun.State := ⟨⟨fun c t => ((c : ℚ) + (t : ℚ), 2), 1⟩⟩

/-- A 1×2 all-empty map with sun intensity 2 (C6 and C9 witness). -/
def exMapC6 : Map :=
  { tiles := [Tile.new, Tile.new]
    sun_tiles := [⟨2⟩]
    sun := exSunVar
    size := ⟨1, 2⟩
    settings := Settings.zero
    tick := 0 }

/-- The C6 counterexample map: a 2×1 all-empty grid whose two sun
columns carry different intensities, exposing which column the sun
boundary lookup reads. -/
def exMapC6cex : Map :=
  { tiles := [Tile.new, Tile.new]
    sun_tiles := [⟨5⟩, ⟨7⟩]
    sun := exSunZero
    size := ⟨2, 1⟩
    settings := Settings.zero
    tick := 0 }

/-- The tile array produced by one step of `exMapC6cex`: each tile
receives its own column's sun intensity, not the average of the two
shifted columns. -/
def exTsC6cex : List Tile := [⟨.Nothing, 0, 5⟩, ⟨.Nothing, 0, 7⟩]

/-- The C7 counterexample map: a 1×2 grid whose top tile has negative
transparency (allowed by `transparency ≤ 1`) and negative light, under a
constant sun of intensity 1. -/
def exMapC7 : Map :=
  { tiles := [⟨.Nothing, -2, -4⟩, ⟨.Nothing, 1, 0⟩]
    sun_tiles := [⟨1⟩]
    sun := exSunZero
    size := ⟨1, 2⟩
    settings := Settings.zero
    tick := 0 }

/-- The C7 witness map: a 1×2 all-empty grid under a constant sun of
intensity 2 (all transparencies in `[0, 1]`, all lights below 2). -/
def exMapC7W : Map :=
  { tiles := [Tile.new, Tile.new]
    sun_tiles := [⟨2⟩]
    sun := exSunZero
    size := ⟨1, 2⟩
    settings := Settings.zero
    tick := 0 }

/-! ## Helper lemmas -/

/-- Sequencing succeeds exactly on lists of successes. -/
theorem seqOption_eq_map_some {α : Type} (l : List (Option α)) (xs : List α)
    (h : seqOption l = some xs) : l = xs.map some := by
  induction l generalizing xs with
  | nil =>
    simp only [seqOption] at h
    cases h
    rfl
  | cons hd tl ih =>
    cases hd with
    | none => simp [seqOption] at h
    | some a =>
      simp only [seqOption, Option.map_eq_some'] at h
      obtain ⟨ys, hys, rfl⟩ := h
      simp [ih ys hys]

/-- A dead plant is removed immediately by `Plant::forward`. -/
theorem Plant.forward_of_dead (p : Plant) (s : Settings) (td : TileData)
    (nb : TileNeighbors) (h : p.alive = false) : p.forward s td nb = some none := by
  unfold Plant.forward
  rw [h]
  rfl

/-- A tile occupied by a dead plant becomes empty. -/
theorem Plant.State.forward_occupied_of_dead (p : Plant) (s : Settings) (td : TileData)
    (nb : TileNeighbors) (h : p.alive = false) :
    Plant.State.forward (.Occupied p) s td nb = some .Nothing := by
  simp only [Plant.State.forward, Plant.forward_of_dead p s td nb h]

/-! ## C1 -/

/-- C1: `Map::step` computes every tile's new state from the previous
tick's tile array and sun-tile array only, so evaluating the tiles in
reverse index order (and restoring index order) produces exactly the
same new grid as forward order. -/
theorem step_reverse_order_eq (m : Map) : m.stepTilesRev = m.stepTilesFwd := by
  unfold Map.stepTilesRev Map.stepTilesFwd
  rw [List.map_reverse, List.reverse_reverse]

/-! ## C10 -/

/-- C10: a plant whose alive flag is false at the start of a tick is
removed immediately by `Plant::forward` — the result carries no refund of
any pending spread energy and the occupied tile becomes empty. -/
theorem dead_plant_forward (p : Plant) (s : Settings) (td : TileData)
    (nb : TileNeighbors) (h : p.alive = false) :
    p.forward s td nb = some none
      ∧ Plant.State.forward (.Occupied p) s td nb = some .Nothing :=
  ⟨Plant.forward_of_dead p s td nb h, Plant.State.forward_occupied_of_dead p s td nb h⟩

/-- Witness for C10: a concrete dead plant holding a pending
`Waiting` spread is dropped without a refund. -/
theorem dead_plant_forward_witness :
    exPlantC10.alive = false
      ∧ (exPlantC10.forward Settings.zero ⟨1, 0⟩ emptyNb = some none
        ∧ Plant.State.forward (.Occupied exPlantC10) Settings.zero ⟨1, 0⟩ emptyNb
            = some .Nothing) :=
  ⟨rfl, dead_plant_forward exPlantC10 Settings.zero ⟨1, 0⟩ emptyNb rfl⟩

/-! ## C4 -/

/-- The concrete plant produced by `Plant::forward` on `exMotherC4`:
the resolved spread spliced a non-exiting bridge into the right slot. -/
def exResC4 : Plant :=
  .mk .Log (BridgeSet.empty.set .Right (some ⟨.Log, false, 1, .Closed⟩)) 1 1 true 5 10 0 .Nothing

/-- C4 (counterexample): it is not true that the alive flag after
`Plant::forward` equals «new energy ≥ 0 and some bridge remaining after
pruning is not exiting»: a successfully resolved spread splices a fresh
non-exiting bridge after pruning, keeping the plant alive even though
the pruned set is empty. -/
theorem plant_alive_pruning_counterexample :
    ¬ (∀ (p p' : Plant) (s : Settings) (td : TileData) (nb : TileNeighbors),
        p.alive = true → p.forward s td nb = some (some p') →
        (p'.alive = true ↔
          (0 ≤ p'.energy
            ∧ ∃ br ∈ (Plant.remove_bridges p.bridges nb).iter, br.exiting = false))) := by
  intro hclaim
  have h2 : exMotherC4.forward Settings.zero ⟨1, 0⟩ exNbC4 = some (some exResC4) := by
    norm_num [Plant.forward, Plant.alive, Plant.spread, Plant.bridges, Plant.energy, Plant.bulk,
      Plant.energy_capacity, Plant.energy_reserve, Plant.age, Plant.cum_age,
      Plant.remove_bridges, Plant.spread_resolve, Plant.get_energy_cost_run,
      Plant.get_bulk_energy_cost_run, Plant.get_bulk_energy_cost_build, Plant.get_energy_gain,
      Plant.get_energy_transfer, Plant.transfer_contrib, Bulk.get_energy_cost_build_base,
      Bulk.get_energy_cost_storage_energy, Bulk.get_energy_cost_factor_run, Bulk.get_energy_gain,
      Bridge.get_opposite, Bridge.get_energy_cost_build, Bridge.get_energy_cost_run,
      BridgeType.get_energy_cost_build_base, BridgeType.get_energy_cost_transfer_energy,
      BridgeType.get_energy_cost_factor_run, TransferMode.get_opposite, TransferMode.can_receive,
      TransferMode.can_transmit, BridgeSet.get, BridgeSet.set, BridgeSet.iter, BridgeSet.empty,
      TileNeighbors.get, NeighborDirection.collection, NeighborDirection.opposite,
      seqOption, rustClamp, Settings.zero, exMotherC4, exNbC4, exOffC4, exResC4, emptyNb,
      List.filterMap, List.sum]
  have hfalse : ¬ (exResC4.alive = true ↔
      (0 ≤ exResC4.energy
        ∧ ∃ br ∈ (Plant.remove_bridges exMotherC4.bridges exNbC4).iter, br.exiting = false)) := by
    intro hiff
    obtain ⟨-, br, hbr, -⟩ := hiff.mp rfl
    simp [Plant.remove_bridges, Plant.bridges, BridgeSet.iter, BridgeSet.empty, exMotherC4,
      exNbC4, emptyNb, TileNeighbors.get, List.filterMap] at hbr
  exact hfalse (hclaim exMotherC4 exResC4 Settings.zero ⟨1, 0⟩ exNbC4 rfl h2)

/-- C4 (amended): after one `Plant::forward` of an alive plant, the new
alive flag is true iff the new energy is ≥ 0 and at least one bridge of
the final bridge set (after pruning and spread resolution) is not marked
exiting; a plant whose final bridge set is empty is not alive regardless
of its energy, and a plant whose alive flag is false has its tile become
empty on the next tick. -/
theorem plant_alive_iff (p p' : Plant) (s : Settings) (td : TileData) (nb : TileNeighbors)
    (halive : p.alive = true) (h : p.forward s td nb = some (some p')) :
    (p'.alive = true ↔ (0 ≤ p'.energy ∧ ∃ br ∈ p'.bridges.iter, br.exiting = false))
      ∧ (p'.bridges.iter = [] → p'.alive = false)
      ∧ (p'.alive = false →
          Plant.State.forward (.Occupied p') s td nb = some .Nothing) := by
  unfold Plant.forward at h
  rw [halive] at h
  simp only [Bool.not_true, Bool.false_eq_true, if_false] at h
  cases htr : p.get_energy_transfer nb with
  | none => rw [htr] at h; exact absurd h (by simp)
  | some v =>
    rw [htr] at h
    simp only [Option.some.injEq] at h
    subst h
    refine ⟨?_, ?_, ?_⟩
    · simp only [Plant.alive, Plant.energy, Plant.bridges, Bool.and_eq_true,
        List.any_eq_true, Bool.not_eq_true', decide_eq_true_eq]
      constructor
      · rintro ⟨⟨br, hbr, hex⟩, he⟩
        exact ⟨he, br, hbr, hex⟩
      · rintro ⟨he, br, hbr, hex⟩
        exact ⟨⟨br, hbr, hex⟩, he⟩
    · intro h0
      simp only [Plant.alive, Plant.bridges] at h0 ⊢
      rw [h0]
      simp
    · intro hdead
      exact Plant.State.forward_occupied_of_dead _ s td nb hdead

/-- Witness for C4: the amended rule evaluated on the concrete mother
plant whose spread resolution spliced one non-exiting bridge. -/
theorem plant_alive_iff_witness :
    (exResC4.alive = true ↔
        (0 ≤ exResC4.energy ∧ ∃ br ∈ exResC4.bridges.iter, br.exiting = false))
      ∧ (exResC4.bridges.iter = [] → exResC4.alive = false)
      ∧ (exResC4.alive = false →
          Plant.State.forward (.Occupied exResC4) Settings.zero ⟨1, 0⟩ exNbC4
            = some .Nothing) :=
  plant_alive_iff exMotherC4 exResC4 Settings.zero ⟨1, 0⟩ exNbC4 rfl (by
    norm_num [Plant.forward, Plant.alive, Plant.spread, Plant.bridges, Plant.energy, Plant.bulk,
      Plant.energy_capacity, Plant.energy_reserve, Plant.age, Plant.cum_age,
      Plant.remove_bridges, Plant.spread_resolve, Plant.get_energy_cost_run,
      Plant.get_bulk_energy_cost_run, Plant.get_bulk_energy_cost_build, Plant.get_energy_gain,
      Plant.get_energy_transfer, Plant.transfer_contrib, Bulk.get_energy_cost_build_base,
      Bulk.get_energy_cost_storage_energy, Bulk.get_energy_cost_factor_run, Bulk.get_energy_gain,
      Bridge.get_opposite, Bridge.get_energy_cost_build, Bridge.get_energy_cost_run,
      BridgeType.get_energy_cost_build_base, BridgeType.get_energy_cost_transfer_energy,
      BridgeType.get_energy_cost_factor_run, TransferMode.get_opposite, TransferMode.can_receive,
      TransferMode.can_transmit, BridgeSet.get, BridgeSet.set, BridgeSet.iter, BridgeSet.empty,
      TileNeighbors.get, NeighborDirection.collection, NeighborDirection.opposite,
      seqOption, rustClamp, Settings.zero, exMotherC4, exNbC4, exOffC4, exResC4, emptyNb,
      List.filterMap, List.sum])

/-! ## C2 -/

/-- C2 (counterexample): the resolution of a `Waiting` spread does not
succeed when the neighbor in direction `d` is `Building` with
`build_dir = opposite(d)` and the offspring's mirrored bridge toward the
mother exists — on that very input the code refunds the energy and
splices nothing, because `Plant::spread_resolve` compares `build_dir`
with `d` itself. -/
theorem spread_resolve_counterexample :
    ¬ (∀ (bridges : BridgeSet) (d : NeighborDirection) (e se : ℚ) (nb : TileNeighbors)
        (plant : Plant) (en tr li : ℚ) (br : Bridge),
        nb.get d = .Tile ⟨.Building plant en d.opposite, tr, li⟩ →
        plant.bridges.get d.opposite = some br →
        Plant.spread_resolve bridges d e se nb = (bridges.set d (some br.get_opposite), se)) := by
  intro hclaim
  have h := hclaim BridgeSet.empty .Right 3 5 exNbC2 exOffC2 0 1 0 ⟨.Log, false, 2, .Open⟩ rfl rfl
  have hact : Plant.spread_resolve BridgeSet.empty .Right 3 5 exNbC2
      = (BridgeSet.empty, 5 + 3) := rfl
  rw [hact] at h
  have hfst : BridgeSet.empty
      = BridgeSet.empty.set .Right (some (Bridge.get_opposite ⟨.Log, false, 2, .Open⟩)) :=
    congrArg Prod.fst h
  simp [BridgeSet.empty, BridgeSet.set] at hfst

/-- C2 (amended): resolving a `Waiting{e, d}` spread either succeeds —
precisely when the neighbor in direction `d` is `Building` whose stored
direction equals `d` itself and the offspring holds a bridge in slot
`opposite(d)` — splicing that bridge's opposite end into slot `d` with
the allocated energy spent (not refunded), or fails and refunds exactly
`e` into the mother's pre-cost energy. -/
theorem spread_resolve_dichotomy (bridges : BridgeSet) (d : NeighborDirection) (e se : ℚ)
    (nb : TileNeighbors) :
    (∃ (plant : Plant) (en tr li : ℚ) (br : Bridge),
        nb.get d = .Tile ⟨.Building plant en d, tr, li⟩
          ∧ plant.bridges.get d.opposite = some br
          ∧ Plant.spread_resolve bridges d e se nb
              = (bridges.set d (some br.get_opposite), se))
      ∨ ((¬ ∃ (plant : Plant) (en tr li : ℚ),
            nb.get d = .Tile ⟨.Building plant en d, tr, li⟩
              ∧ (plant.bridges.get d.opposite).isSome = true)
          ∧ Plant.spread_resolve bridges d e se nb = (bridges, se + e)) := by
  unfold Plant.spread_resolve
  cases hg : nb.get d with
  | Empty =>
    refine Or.inr ⟨?_, rfl⟩
    rintro ⟨p, en, tr, li, heq, -⟩
    simp at heq
  | SunTile st =>
    refine Or.inr ⟨?_, rfl⟩
    rintro ⟨p, en, tr, li, heq, -⟩
    simp at heq
  | Tile tile =>
    obtain ⟨tplant, ttr, tli⟩ := tile
    cases tplant with
    | Nothing =>
      refine Or.inr ⟨?_, rfl⟩
      rintro ⟨p, en, tr, li, heq, -⟩
      simp at heq
    | Occupied q =>
      refine Or.inr ⟨?_, rfl⟩
      rintro ⟨p, en, tr, li, heq, -⟩
      simp at heq
    | Building p' en' bd =>
      by_cases hbd : bd = d
      · subst hbd
        simp only [if_true]
        cases hbr : p'.bridges.get bd.opposite with
        | some br =>
          exact Or.inl ⟨p', en', ttr, tli, br, rfl, hbr, rfl⟩
        | none =>
          refine Or.inr ⟨?_, rfl⟩
          rintro ⟨p2, en2, tr2, li2, heq, hsome⟩
          simp only [Neighbor.Tile.injEq, Tile.mk.injEq, Plant.State.Building.injEq] at heq
          obtain ⟨⟨rfl, -, -⟩, -, -⟩ := heq
          rw [hbr] at hsome
          simp at hsome
      · simp only []
        rw [if_neg hbd]
        refine Or.inr ⟨?_, rfl⟩
        rintro ⟨p2, en2, tr2, li2, heq, -⟩
        simp only [Neighbor.Tile.injEq, Tile.mk.injEq, Plant.State.Building.injEq] at heq
        exact hbd heq.1.2.2

/-! ## C3 -/

/-- C3 (counterexample): the building cost is not «bulk build cost plus
the bridge toward the mother»: an offspring with an extra bridge is also
charged half of that bridge's build cost, so a `Building` tile that the
claim's formula predicts to succeed fails on the code. -/
theorem try_build_cost_counterexample :
    ¬ (∀ (s : Settings) (plant : Plant) (energy : ℚ) (dir : NeighborDirection)
        (nb : TileNeighbors) (mother : Plant) (tr li : ℚ),
        nb.get dir = .Tile ⟨.Occupied mother, tr, li⟩ → mother.alive = true →
        Plant.State.try_build s (plant, energy, dir) nb =
          (if energy - claimedBuildCost s plant dir < 0 then .Nothing
            else .Occupied (plant.withEnergy
              (min (energy - claimedBuildCost s plant dir) plant.energy_capacity)))) := by
  intro hclaim
  have h := hclaim exSettingsC3 exOffC3 (1 / 2) .Right exNbC3 exMotherC3 1 0 rfl rfl
  have hact : Plant.State.try_build exSettingsC3 (exOffC3, 1 / 2, .Right) exNbC3 = .Nothing := by
    norm_num [Plant.State.try_build, Plant.alive, Plant.bridges, Plant.bulk,
      Plant.energy_capacity, Plant.get_energy_cost_build, Plant.get_bulk_energy_cost_build,
      Bulk.get_energy_cost_build_base, Bulk.get_energy_cost_storage_energy,
      Bridge.get_energy_cost_build, BridgeType.get_energy_cost_build_base,
      BridgeType.get_energy_cost_transfer_energy, BridgeSet.get, BridgeSet.set, BridgeSet.iter,
      BridgeSet.empty, TileNeighbors.get, exSettingsC3, exOffC3, exNbC3, exMotherC3, emptyNb,
      Settings.zero, List.filterMap, List.sum]
  have hcost : claimedBuildCost exSettingsC3 exOffC3 .Right = 0 := by
    norm_num [claimedBuildCost, Plant.get_bulk_energy_cost_build, Plant.bulk, Plant.bridges,
      Plant.energy_capacity, Bulk.get_energy_cost_build_base, Bulk.get_energy_cost_storage_energy,
      Bridge.get_energy_cost_build, BridgeType.get_energy_cost_build_base,
      BridgeType.get_energy_cost_transfer_energy, BridgeSet.get, BridgeSet.set, BridgeSet.empty,
      exSettingsC3, exOffC3, Settings.zero]
  rw [hact, hcost] at h
  norm_num at h
  simp at h

/-- C3 (amended): a `Building{plant, energy, dir}` tile whose mother (in
direction `dir`) is an alive occupied plant transitions to `Nothing`
when `energy − build_cost < 0` and otherwise to `Occupied` with energy
`min(energy − build_cost, capacity)`, where `build_cost` is the
offspring's bulk build cost plus half the build cost of each of its
bridges plus an additional half of the bridge toward the mother; when
the mother tile is missing or not an alive occupied plant, the tile
transitions to `Nothing`. -/
theorem try_build_characterization (s : Settings) (plant : Plant) (energy : ℚ)
    (dir : NeighborDirection) (nb : TileNeighbors) :
    (∀ (mother : Plant) (tr li : ℚ), nb.get dir = .Tile ⟨.Occupied mother, tr, li⟩ →
        mother.alive = true →
        Plant.State.try_build s (plant, energy, dir) nb =
          (if energy - amendedBuildCost s plant dir < 0 then .Nothing
            else .Occupied (plant.withEnergy
              (min (energy - amendedBuildCost s plant dir) plant.energy_capacity))))
      ∧ (motherMissingOrDead nb dir →
          Plant.State.try_build s (plant, energy, dir) nb = .Nothing) := by
  constructor
  · intro mother tr li hm ha
    simp only [Plant.State.try_build, amendedBuildCost, Plant.withEnergy]
    rw [hm]
    simp only [ha, if_true]
    try rfl
  · intro hmd
    unfold motherMissingOrDead at hmd
    simp only [Plant.State.try_build]
    cases hg : nb.get dir with
    | Empty => rfl
    | SunTile st => rfl
    | Tile tile =>
      obtain ⟨tplant, ttr, tli⟩ := tile
      rw [hg] at hmd
      cases tplant with
      | Nothing => rfl
      | Building p' en' bd => rfl
      | Occupied q =>
        simp only at hmd
        simp [hmd]

/-- Witness for C3: the amended cost rule evaluated on the concrete
two-bridge offspring. -/
theorem try_build_characterization_witness :
    exNbC3.get .Right = .Tile ⟨.Occupied exMotherC3, 1, 0⟩
      ∧ exMotherC3.alive = true
      ∧ Plant.State.try_build exSettingsC3 (exOffC3, 1 / 2, .Right) exNbC3 =
          (if (1 : ℚ) / 2 - amendedBuildCost exSettingsC3 exOffC3 .Right < 0 then .Nothing
            else .Occupied (exOffC3.withEnergy
              (min ((1 : ℚ) / 2 - amendedBuildCost exSettingsC3 exOffC3 .Right)
                exOffC3.energy_capacity))) :=
  ⟨rfl, rfl,
    (try_build_characterization exSettingsC3 exOffC3 (1 / 2) .Right exNbC3).1
      exMotherC3 1 0 rfl rfl⟩

/-! ## C5 -/

/-- With a lower bound below the upper bound, clamping is the median. -/
theorem max_min_median (lo hi x : ℚ) (h : lo ≤ hi) :
    max lo (min x hi) = min hi (max lo x) := by
  rcases le_total x lo with h1 | h1
  · rw [min_eq_left (le_trans h1 h), max_eq_left h1, min_eq_right h]
  · rcases le_total x hi with h2 | h2
    · rw [min_eq_left h2, max_eq_right h1, min_eq_right h2]
    · rw [min_eq_right h2, max_eq_right h, max_eq_right h1, min_eq_left h2]

/-- Clamping the negated value into the negated interval negates the
result, and the two clamps panic together. -/
theorem rustClamp_neg (x lo hi t : ℚ) :
    rustClamp x lo hi = some t ↔ rustClamp (-x) (-hi) (-lo) = some (-t) := by
  unfold rustClamp
  by_cases h : lo ≤ hi
  · rw [if_pos h, if_pos (neg_le_neg h)]
    have key : max (-hi) (min (-x) (-lo)) = -(max lo (min x hi)) := by
      rw [max_min_median (-hi) (-lo) (-x) (neg_le_neg h), max_neg_neg, min_neg_neg,
        min_comm hi x]
    rw [key]
    simp only [Option.some.injEq]
    exact neg_inj.symm
  · rw [if_neg h, if_neg (fun hc => h (neg_le_neg_iff.mp hc))]
    simp

/-- C5: for two adjacent alive occupied plants joined by one open-mode
bridge (each side holding the `get_opposite` of the other's record) with
equal energy reserves, the per-direction transfer computed at one tile
is exactly the negation of the transfer computed at the other tile, and
the two computations panic together. -/
theorem transfer_zero_sum (A B : Plant) (b : Bridge) (d : NeighborDirection)
    (nbA nbB : TileNeighbors) (trA liA trB liB t : ℚ)
    (hopen : b.energy_transfer = .Open)
    (hres : A.energy_reserve = B.energy_reserve)
    (halA : A.alive = true) (halB : B.alive = true)
    (hbrA : A.bridges.get d = some b)
    (hbrB : B.bridges.get d.opposite = some b.get_opposite)
    (hnA : nbA.get d = .Tile ⟨.Occupied B, trB, liB⟩)
    (hnB : nbB.get d.opposite = .Tile ⟨.Occupied A, trA, liA⟩) :
    A.transfer_contrib nbA d = some t
      ↔ B.transfer_contrib nbB d.opposite = some (-t) := by
  unfold Plant.transfer_contrib
  rw [hbrA, hbrB, hnA, hnB]
  simp only [halA, halB, if_true]
  unfold Plant.transferAmount
  simp only [hopen, Bridge.get_opposite, TransferMode.get_opposite, TransferMode.can_transmit,
    TransferMode.can_receive, if_true]
  rw [rustClamp_neg]
  rw [neg_neg, neg_sub]

/-- Witness for C5: the concrete pair exchanges exactly one unit of
energy, counted with opposite signs at the two ends. -/
theorem transfer_zero_sum_witness :
    (exAC5.transfer_contrib exNbAC5 .Right = some (-1)
        ↔ exBC5.transfer_contrib exNbBC5 NeighborDirection.Right.opposite = some (-(-1)))
      ∧ exAC5.transfer_contrib exNbAC5 .Right = some (-1) :=
  ⟨transfer_zero_sum exAC5 exBC5 exBridgeC5 .Right exNbAC5 exNbBC5 1 0 1 0 (-1)
      rfl rfl rfl rfl rfl rfl rfl rfl,
    by
      norm_num [Plant.transfer_contrib, Plant.transferAmount, Plant.alive, Plant.bridges,
        Plant.energy, Plant.energy_capacity, Plant.energy_reserve, rustClamp,
        Bridge.get_opposite, TransferMode.get_opposite, TransferMode.can_transmit,
        TransferMode.can_receive, BridgeSet.get, BridgeSet.set, BridgeSet.empty,
        TileNeighbors.get, exAC5, exBC5, exBridgeC5, exNbAC5, exNbBC5, emptyNb]⟩

/-! ## C8 -/

/-- A plant whose reserve and energy respect its capacity has
non-negative per-direction spare capacity. -/
theorem spare_capacity_nonneg (p : Plant) (hp : goodPlant p) :
    0 ≤ (p.energy_capacity - p.energy_reserve) / 6
      - max ((p.energy - p.energy_reserve) / 6) 0 := by
  obtain ⟨hrc, hec⟩ := hp
  rcases le_total p.energy p.energy_reserve with h | h
  · rw [max_eq_right (by
      apply div_nonpos_of_nonpos_of_nonneg (sub_nonpos.mpr h)
      norm_num)]
    rw [sub_zero]
    exact div_nonneg (sub_nonneg.mpr hrc) (by norm_num)
  · rw [max_eq_left (div_nonneg (sub_nonneg.mpr h) (by norm_num))]
    have hring : (p.energy_capacity - p.energy_reserve) / 6
        - (p.energy - p.energy_reserve) / 6 = (p.energy_capacity - p.energy) / 6 := by
      ring
    rw [hring]
    exact div_nonneg (sub_nonneg.mpr hec) (by norm_num)

/-- Sequencing a list of defined results is defined. -/
theorem seqOption_isSome {α : Type} (l : List (Option α))
    (h : ∀ x ∈ l, x.isSome = true) : (seqOption l).isSome = true := by
  induction l with
  | nil => rfl
  | cons hd tl ih =>
    cases hd with
    | none => exact absurd (h none (by simp)) (by simp)
    | some a =>
      have ih2 := ih (fun x hx => h x (by simp [hx]))
      obtain ⟨ys, hys⟩ := Option.isSome_iff_exists.mp ih2
      simp [seqOption, hys]

/-- The per-direction transfer of a well-formed plant never panics. -/
theorem transfer_contrib_isSome (p : Plant) (nb : TileNeighbors) (dir : NeighborDirection)
    (hp : goodPlant p)
    (hb : ∀ br : Bridge, p.bridges.get dir = some br → 0 ≤ br.energy_capacity)
    (hnb : ∀ (tile : Tile) (q : Plant), nb.get dir = .Tile tile → tile.plant = .Occupied q →
      goodPlant q) :
    (p.transfer_contrib nb dir).isSome = true := by
  unfold Plant.transfer_contrib
  cases hbr : p.bridges.get dir with
  | none => rfl
  | some br =>
    cases hg : nb.get dir with
    | Empty => rfl
    | SunTile st => rfl
    | Tile tile =>
      obtain ⟨tp, ttr, tli⟩ := tile
      cases tp with
      | Nothing => rfl
      | Building p' en' bd => rfl
      | Occupied q =>
        simp only []
        by_cases ha : q.alive = true
        · rw [if_pos ha]
          have hcq := spare_capacity_nonneg q (hnb _ q hg rfl)
          have hcp := spare_capacity_nonneg p hp
          have hc := hb br hbr
          simp only [Plant.transferAmount, rustClamp]
          have hlo : (if br.energy_transfer.can_transmit = true then
              -(min br.energy_capacity
                ((q.energy_capacity - q.energy_reserve) / 6
                  - max ((q.energy - q.energy_reserve) / 6) 0))
            else 0) ≤ 0 := by
            split
            · exact neg_nonpos.mpr (le_min hc hcq)
            · exact le_refl 0
          have hhi : 0 ≤ (if br.energy_transfer.can_receive = true then
              min br.energy_capacity
                ((p.energy_capacity - p.energy_reserve) / 6
                  - max ((p.energy - p.energy_reserve) / 6) 0)
            else 0) := by
            split
            · exact le_min hc hcp
            · exact le_refl 0
          rw [if_pos (le_trans hlo hhi)]
          rfl
        · rw [if_neg ha]
          rfl

/-- C8 (counterexample): one simulation step is not total over every
plant state: with `energy_reserve` above `energy_capacity` on both ends
of an open bridge the clamp inside `get_energy_transfer` is invoked with
its lower bound above its upper bound, and the step panics. -/
theorem step_totality_counterexample :
    (¬ ∀ (p : Plant) (s : Settings) (td : TileData) (nb : TileNeighbors),
        (p.forward s td nb).isSome = true)
      ∧ exPlantC8.get_energy_transfer exNbC8 = none
      ∧ exPlantC8.forward Settings.zero ⟨1, 0⟩ exNbC8 = none := by
  have htr : exPlantC8.get_energy_transfer exNbC8 = none := by
    norm_num [Plant.get_energy_transfer, Plant.transfer_contrib, Plant.transferAmount,
      Plant.alive, Plant.bridges, Plant.energy, Plant.energy_capacity, Plant.energy_reserve,
      rustClamp, seqOption, Bridge.get_opposite, TransferMode.can_transmit,
      TransferMode.can_receive, BridgeSet.get, BridgeSet.set, BridgeSet.empty,
      TileNeighbors.get, NeighborDirection.collection, exPlantC8, exOtherC8, exNbC8, emptyNb]
  have hfw : exPlantC8.forward Settings.zero ⟨1, 0⟩ exNbC8 = none := by
    unfold Plant.forward
    rw [htr]
    simp [exPlantC8, Plant.alive]
  refine ⟨?_, htr, hfw⟩
  intro h
  have h2 := h exPlantC8 Settings.zero ⟨1, 0⟩ exNbC8
  rw [hfw] at h2
  simp at h2

/-- C8 (amended): for every settings value and every plant state whose
energy invariants hold — `energy_reserve ≤ energy_capacity` and
`energy ≤ energy_capacity` on the plant and on every occupied neighbor,
and non-negative bridge capacities — the clamp inside
`get_energy_transfer` is always invoked with its lower bound at most its
upper bound, and the plant step never panics. -/
theorem get_energy_transfer_total (p : Plant) (s : Settings) (td : TileData)
    (nb : TileNeighbors) (hp : goodPlant p)
    (hb : ∀ (dir : NeighborDirection) (br : Bridge), p.bridges.get dir = some br →
      0 ≤ br.energy_capacity)
    (hnb : ∀ (dir : NeighborDirection) (tile : Tile) (q : Plant), nb.get dir = .Tile tile →
      tile.plant = .Occupied q → goodPlant q) :
    (p.get_energy_transfer nb).isSome = true ∧ (p.forward s td nb).isSome = true := by
  have htr : (p.get_energy_transfer nb).isSome = true := by
    unfold Plant.get_energy_transfer
    have hs : (seqOption (NeighborDirection.collection.map (p.transfer_contrib nb))).isSome
        = true := by
      apply seqOption_isSome
      intro x hx
      obtain ⟨dir, -, rfl⟩ := List.mem_map.mp hx
      exact transfer_contrib_isSome p nb dir hp (hb dir) (hnb dir)
    obtain ⟨ys, hys⟩ := Option.isSome_iff_exists.mp hs
    rw [hys]
    rfl
  refine ⟨htr, ?_⟩
  unfold Plant.forward
  cases hal : p.alive with
  | false => rfl
  | true =>
    simp only [Bool.not_true, Bool.false_eq_true, if_false]
    obtain ⟨v, hv⟩ := Option.isSome_iff_exists.mp htr
    rw [hv]
    rfl

/-- Witness for C8: a well-formed bridge-free plant steps without a
panic. -/
theorem get_energy_transfer_total_witness :
    (exGoodPlantC8.get_energy_transfer emptyNb).isSome = true
      ∧ (exGoodPlantC8.forward Settings.zero ⟨1, 0⟩ emptyNb).isSome = true :=
  get_energy_transfer_total exGoodPlantC8 Settings.zero ⟨1, 0⟩ emptyNb
    (by
      constructor
      · norm_num [exGoodPlantC8, Plant.energy_reserve, Plant.energy_capacity]
      · norm_num [exGoodPlantC8, Plant.energy, Plant.energy_capacity])
    (fun dir br h => by
      cases dir <;> simp [exGoodPlantC8, Plant.bridges, BridgeSet.empty, BridgeSet.get] at h)
    (fun dir tile q h _ => by
      cases dir <;> simp [emptyNb, TileNeighbors.get] at h)

/-! ## Grid-step helper lemmas -/

/-- A successful `Map::step` tile array is the per-index image of the
previous snapshot. -/
theorem stepTiles_spec (m : Map) (ts : List Tile) (h : m.stepTiles = some ts) :
    ts.length = m.tiles.length
      ∧ ∀ i, i < m.tiles.length →
          m.stepAt (i, getTile m.tiles i) = some (getTile ts i) := by
  have key : m.stepTilesFwd = ts.map some := seqOption_eq_map_some _ _ h
  have hlen : ts.length = m.tiles.length := by
    have h2 := congrArg List.length key
    simp only [Map.stepTilesFwd, List.length_map, List.enum_length] at h2
    exact h2.symm
  refine ⟨hlen, ?_⟩
  intro i hi
  have h2 := congrArg (fun l => l[i]?) key
  simp only [Map.stepTilesFwd, List.getElem?_map, List.getElem?_enum] at h2
  rw [List.getElem?_eq_getElem hi, List.getElem?_eq_getElem (by omega : i < ts.length)] at h2
  simp only [Option.map_some'] at h2
  have e1 : getTile m.tiles i = m.tiles[i] := by
    simp [getTile, List.getD_eq_getElem?_getD, List.getElem?_eq_getElem hi]
  have e2 : getTile ts i = ts[i] := by
    simp [getTile, List.getD_eq_getElem?_getD,
      List.getElem?_eq_getElem (by omega : i < ts.length)]
  rw [e1, e2]
  exact Option.some.inj h2

/-- The light field of a successfully stepped tile is `forward_light`
of the previous snapshot. -/
theorem stepTiles_light (m : Map) (ts : List Tile) (i : Nat)
    (hts : m.stepTiles = some ts) (hi : i < m.tiles.length) :
    (getTile ts i).light =
      Tile.forward_light (getTile m.tiles i) m.settings
        (TileNeighbors.new m.tiles m.sun_tiles m.size (TilePos.from_index i m.size)) := by
  obtain ⟨-, hpt⟩ := stepTiles_spec m ts hts
  have h := hpt i hi
  unfold Map.stepAt at h
  unfold Tile.forward at h
  cases hpl : (getTile m.tiles i).plant.forward m.settings (getTile m.tiles i).data
      (TileNeighbors.new m.tiles m.sun_tiles m.size (TilePos.from_index i m.size)) with
  | none => rw [hpl] at h; exact absurd h (by simp)
  | some pstate =>
    rw [hpl] at h
    simp only [Option.some.injEq] at h
    rw [← h]

/-- The light received from an upper neighbor built by
`TileNeighbors::new` matches the code-side `ownLightFrom` formula. -/
theorem forward_light_new (t : Tile) (s : Settings) (tiles : List Tile) (sun : List SunTile)
    (size : ISize) (pos : TilePos) :
    Tile.forward_light t s (TileNeighbors.new tiles sun size pos) =
      1 / 2 * (ownLightFrom tiles sun size pos (pos.up_right size)
        + ownLightFrom tiles sun size pos (pos.up_left size)) := by
  unfold Tile.forward_light TileNeighbors.new ownLightFrom
  cases pos.up_right size <;> cases pos.up_left size <;> rfl

/-! ## C6 -/

/-- C6 (counterexample): the sun contribution of an above-row-0 upper
neighbor is not the sun tile of that neighbor position's (shifted,
wrapped) column: on a 2-column, 1-row grid with sun tiles 5 and 7 the
code gives the even column the light 5, not the average 6 that the
claimed per-neighbor-column formula predicts, because the source's
`Invalid(_)` arm reads `sun[pos.pos.x]` with the tile's own position. -/
theorem step_light_formula_counterexample :
    ¬ (∀ (m : Map) (ts : List Tile) (i : Nat),
        m.stepTiles = some ts → i < m.tiles.length →
        (getTile ts i).light =
          1 / 2 * (claimLightFrom m.tiles m.sun_tiles m.size
              ((TilePos.from_index i m.size).up_right m.size)
            + claimLightFrom m.tiles m.sun_tiles m.size
              ((TilePos.from_index i m.size).up_left m.size))) := by
  intro hclaim
  have hts : exMapC6cex.stepTiles = some exTsC6cex := by
    norm_num [Map.stepTiles, Map.stepTilesFwd, Map.stepAt, Tile.forward,
      Tile.forward_transparency, Tile.forward_light, Tile.data, Tile.new,
      Plant.State.forward, Plant.State.try_spread, Plant.State.get_transparency,
      Plant.State.minByDirId, TileNeighbors.new, TileNeighbors.get, TilePos.from_index,
      TilePos.right, TilePos.up_right, TilePos.up_left, TilePos.left, TilePos.down_left,
      TilePos.down_right, TilePos.to_index, getTile, getSunTile, List.getD, seqOption,
      NeighborDirection.collection, List.enum, List.enumFrom, List.filterMap,
      exMapC6cex, exTsC6cex, exSunZero, Settings.zero]
  have h := hclaim exMapC6cex exTsC6cex 0 hts (by norm_num [exMapC6cex])
  norm_num [claimLightFrom, getTile, getSunTile, TilePos.from_index, TilePos.up_right,
    TilePos.up_left, TilePos.to_index, List.getD, exMapC6cex, exTsC6cex] at h

/-- C6 (amended): for every tile index of the grid, a successful step
gives the tile the light `0.5 × (light_from(up_right) +
light_from(up_left))`, where an upper neighbor above row 0 contributes
the sun tile of the tile's own column and an in-grid neighbor
contributes `light × transparency`, both read from the previous
snapshot, independent of plant occupancy. -/
theorem step_light_own_column (m : Map) (ts : List Tile) (i : Nat)
    (hts : m.stepTiles = some ts) (hi : i < m.tiles.length) :
    (getTile ts i).light =
      1 / 2 * (ownLightFrom m.tiles m.sun_tiles m.size (TilePos.from_index i m.size)
          ((TilePos.from_index i m.size).up_right m.size)
        + ownLightFrom m.tiles m.sun_tiles m.size (TilePos.from_index i m.size)
          ((TilePos.from_index i m.size).up_left m.size)) := by
  rw [stepTiles_light m ts i hts hi]
  exact forward_light_new _ _ _ _ _ _

/-- The tile array produced by one step of `exMapC6`: the top tile
receives the sun intensity 2, the bottom tile the attenuated darkness of
the old top tile. -/
def exTsC6 : List Tile := [⟨.Nothing, 0, 2⟩, ⟨.Nothing, 0, 0⟩]

/-- Witness for C6: the own-column light formula evaluated at the top
tile of the concrete 1×2 map. -/
theorem step_light_own_column_witness :
    (getTile exTsC6 0).light =
      1 / 2 * (ownLightFrom exMapC6.tiles exMapC6.sun_tiles exMapC6.size
          (TilePos.from_index 0 exMapC6.size)
          ((TilePos.from_index 0 exMapC6.size).up_right exMapC6.size)
        + ownLightFrom exMapC6.tiles exMapC6.sun_tiles exMapC6.size
          (TilePos.from_index 0 exMapC6.size)
          ((TilePos.from_index 0 exMapC6.size).up_left exMapC6.size)) :=
  step_light_own_column exMapC6 exTsC6 0
    (by
      norm_num [Map.stepTiles, Map.stepTilesFwd, Map.stepAt, Tile.forward,
        Tile.forward_transparency, Tile.forward_light, Tile.data, Tile.new,
        Plant.State.forward, Plant.State.try_spread, Plant.State.get_transparency,
        Plant.State.minByDirId, TileNeighbors.new, TileNeighbors.get, TilePos.from_index,
        TilePos.right, TilePos.up_right, TilePos.up_left, TilePos.left, TilePos.down_left,
        TilePos.down_right, TilePos.to_index, getTile, getSunTile, List.getD, seqOption,
        NeighborDirection.collection, List.enum, List.enumFrom, List.filterMap,
        exMapC6, exTsC6, exSunVar, Settings.zero])
    (by norm_num [exMapC6])

/-! ## C7 -/

/-- The tile array produced by one step of the C7 counterexample map:
the bottom tile's light, `(−4)·(−2)` from both upper slots, exceeds the
constant sun value 1. -/
def exTsC7 : List Tile := [⟨.Nothing, 0, 1⟩, ⟨.Nothing, 0, 8⟩]

/-- C7 (counterexample): with transparency only bounded above by 1, a
tile of negative transparency and negative light can push a neighbor's
light above the constant sun value `k` in one step. -/
theorem light_bound_counterexample :
    ¬ (∀ (m : Map) (ts : List Tile) (k : ℚ), 0 ≤ k →
        (∀ t ∈ m.tiles, t.transparency ≤ 1) →
        (∀ st ∈ m.sun_tiles, st.intensity = k) →
        (∀ t ∈ m.tiles, t.light ≤ k) →
        m.stepTiles = some ts →
        (∀ t ∈ ts, t.light ≤ k)) := by
  intro hclaim
  have hts : exMapC7.stepTiles = some exTsC7 := by
    norm_num [Map.stepTiles, Map.stepTilesFwd, Map.stepAt, Tile.forward,
      Tile.forward_transparency, Tile.forward_light, Tile.data, Tile.new,
      Plant.State.forward, Plant.State.try_spread, Plant.State.get_transparency,
      Plant.State.minByDirId, TileNeighbors.new, TileNeighbors.get, TilePos.from_index,
      TilePos.right, TilePos.up_right, TilePos.up_left, TilePos.left, TilePos.down_left,
      TilePos.down_right, TilePos.to_index, getTile, getSunTile, List.getD, seqOption,
      NeighborDirection.collection, List.enum, List.enumFrom, List.filterMap,
      exMapC7, exTsC7, exSunZero, Settings.zero]
  have h := hclaim exMapC7 exTsC7 1 (by norm_num)
    (by
      intro t ht
      simp only [exMapC7, List.mem_cons, List.not_mem_nil, or_false] at ht
      rcases ht with rfl | rfl <;> norm_num)
    (by
      intro st hst
      simp only [exMapC7, List.mem_cons, List.not_mem_nil, or_false] at hst
      rcases hst with rfl
      norm_num)
    (by
      intro t ht
      simp only [exMapC7, List.mem_cons, List.not_mem_nil, or_false] at ht
      rcases ht with rfl | rfl <;> norm_num)
    hts
  have h8 := h ⟨.Nothing, 0, 8⟩ (by simp [exTsC7])
  norm_num at h8

/-- C7 (amended): for a grid whose tiles all have transparency in
`[0, 1]` and light at most the constant sun value `k ≥ 0`, every tile's
light after one step is still at most `k`. -/
theorem light_bounded (m : Map) (ts : List Tile) (k : ℚ) (hk : 0 ≤ k)
    (htr : ∀ t ∈ m.tiles, 0 ≤ t.transparency ∧ t.transparency ≤ 1)
    (hli : ∀ t ∈ m.tiles, t.light ≤ k)
    (hsun : ∀ st ∈ m.sun_tiles, st.intensity = k)
    (hts : m.stepTiles = some ts) :
    ∀ t ∈ ts, t.light ≤ k := by
  have htileP : ∀ j, 0 ≤ (getTile m.tiles j).transparency
      ∧ (getTile m.tiles j).transparency ≤ 1 ∧ (getTile m.tiles j).light ≤ k := by
    intro j
    unfold getTile
    rcases lt_or_ge j m.tiles.length with hj | hj
    · rw [List.getD_eq_getElem?_getD, List.getElem?_eq_getElem hj]
      have hmem := List.getElem_mem hj
      exact ⟨(htr _ hmem).1, (htr _ hmem).2, hli _ hmem⟩
    · rw [List.getD_eq_getElem?_getD, List.getElem?_eq_none hj]
      exact ⟨by norm_num [Tile.new], by norm_num [Tile.new], by norm_num [Tile.new, hk]⟩
  have hsunP : ∀ j, (getSunTile m.sun_tiles j).intensity ≤ k := by
    intro j
    unfold getSunTile
    rcases lt_or_ge j m.sun_tiles.length with hj | hj
    · rw [List.getD_eq_getElem?_getD, List.getElem?_eq_getElem hj]
      exact le_of_eq (hsun _ (List.getElem_mem hj))
    · rw [List.getD_eq_getElem?_getD, List.getElem?_eq_none hj]
      exact hk
  have hmul : ∀ li tr : ℚ, li ≤ k → 0 ≤ tr → tr ≤ 1 → li * tr ≤ k := by
    intro li tr h1 h2 h3
    rcases le_total li 0 with h4 | h4
    · exact le_trans (mul_nonpos_iff.mpr (Or.inr ⟨h4, h2⟩)) hk
    · calc li * tr ≤ li * 1 := mul_le_mul_of_nonneg_left h3 h4
        _ = li := mul_one li
        _ ≤ k := h1
  have hclf : ∀ (own : TilePos) r, ownLightFrom m.tiles m.sun_tiles m.size own r ≤ k := by
    intro own r
    cases r with
    | Invalid p => exact hsunP _
    | Valid p =>
      have hp := htileP (p.to_index m.size)
      exact hmul _ _ hp.2.2 hp.1 hp.2.1
  obtain ⟨hlen, -⟩ := stepTiles_spec m ts hts
  intro t ht
  obtain ⟨i, hi, rfl⟩ := List.mem_iff_getElem.mp ht
  have hi' : i < m.tiles.length := by omega
  have e2 : ts[i] = getTile ts i := by
    simp [getTile, List.getD_eq_getElem?_getD, List.getElem?_eq_getElem hi]
  rw [e2, stepTiles_light m ts i hts hi', forward_light_new]
  have h1 := hclf (TilePos.from_index i m.size) ((TilePos.from_index i m.size).up_right m.size)
  have h2 := hclf (TilePos.from_index i m.size) ((TilePos.from_index i m.size).up_left m.size)
  linarith

/-- Witness for C7: one step of the all-empty 1×2 map under a constant
sun of intensity 2 keeps the top tile's light at most 2. -/
theorem light_bounded_witness :
    (Tile.mk .Nothing 0 2).light ≤ (2 : ℚ) :=
  light_bounded exMapC7W [⟨.Nothing, 0, 2⟩, ⟨.Nothing, 0, 0⟩] 2 (by norm_num)
    (by
      intro t ht
      simp only [exMapC7W, Tile.new, List.mem_cons, List.not_mem_nil, or_false] at ht
      rcases ht with rfl | rfl <;> norm_num)
    (by
      intro t ht
      simp only [exMapC7W, Tile.new, List.mem_cons, List.not_mem_nil, or_false] at ht
      rcases ht with rfl | rfl <;> norm_num)
    (by
      intro st hst
      simp only [exMapC7W, List.mem_cons, List.not_mem_nil, or_false] at hst
      rcases hst with rfl
      norm_num)
    (by
      norm_num [Map.stepTiles, Map.stepTilesFwd, Map.stepAt, Tile.forward,
        Tile.forward_transparency, Tile.forward_light, Tile.data, Tile.new,
        Plant.State.forward, Plant.State.try_spread, Plant.State.get_transparency,
        Plant.State.minByDirId, TileNeighbors.new, TileNeighbors.get, TilePos.from_index,
        TilePos.right, TilePos.up_right, TilePos.up_left, TilePos.left, TilePos.down_left,
        TilePos.down_right, TilePos.to_index, getTile, getSunTile, List.getD, seqOption,
        NeighborDirection.collection, List.enum, List.enumFrom, List.filterMap,
        exMapC7W, exSunZero, Settings.zero])
    ⟨.Nothing, 0, 2⟩ (by simp)

/-! ## C9 -/

/-- C9: after every `Map::step`, the sun-tile array is re-derived from
the intensity model at the new tick by `sun::State::get_tiles`, and the
value stored for each column equals the primary plus the secondary
intensity of the model at that column and tick — never persisted from
the previous sun tiles. -/
theorem sun_tiles_from_model (m m' : Map) (c : Nat) (h : m.step = some m')
    (hc : c < m.sun.intensity.size) :
    m'.tick = m.tick + 1
      ∧ m'.sun_tiles = m.sun.get_tiles (m.tick + 1)
      ∧ getSunTile m'.sun_tiles c =
          ⟨(m.sun.intensity.get_intensity c (m.tick + 1)).1
            + (m.sun.intensity.get_intensity c (m.tick + 1)).2⟩ := by
  unfold Map.step at h
  cases hst : m.stepTiles with
  | none => rw [hst] at h; exact absurd h (by simp)
  | some ts =>
    rw [hst] at h
    simp only [Option.some.injEq] at h
    subst h
    refine ⟨rfl, rfl, ?_⟩
    unfold getSunTile Sun.State.get_tiles Intensity.iter
    rw [List.getD_eq_getElem?_getD, List.getElem?_map, List.getElem?_map,
      List.getElem?_range hc]
    rfl

/-- The map produced by one step of `exMapC6`: tick 1, sun tile
`(0 + 1) + 2 = 3`. -/
def exMapC6' : Map :=
  { tiles := exTsC6
    sun_tiles := [⟨3⟩]
    sun := exSunVar
    size := ⟨1, 2⟩
    settings := Settings.zero
    tick := 1 }

/-- Witness for C9: one step of the concrete map re-derives its single
sun tile from the tick-dependent model. -/
theorem sun_tiles_from_model_witness :
    exMapC6'.tick = exMapC6.tick + 1
      ∧ exMapC6'.sun_tiles = exMapC6.sun.get_tiles (exMapC6.tick + 1)
      ∧ getSunTile exMapC6'.sun_tiles 0 =
          ⟨(exMapC6.sun.intensity.get_intensity 0 (exMapC6.tick + 1)).1
            + (exMapC6.sun.intensity.get_intensity 0 (exMapC6.tick + 1)).2⟩ :=
  sun_tiles_from_model exMapC6 exMapC6' 0
    (by
      unfold Map.step
      have hts : exMapC6.stepTiles = some exTsC6 := by
        norm_num [Map.stepTiles, Map.stepTilesFwd, Map.stepAt, Tile.forward,
          Tile.forward_transparency, Tile.forward_light, Tile.data, Tile.new,
          Plant.State.forward, Plant.State.try_spread, Plant.State.get_transparency,
          Plant.State.minByDirId, TileNeighbors.new, TileNeighbors.get, TilePos.from_index,
          TilePos.right, TilePos.up_right, TilePos.up_left, TilePos.left, TilePos.down_left,
          TilePos.down_right, TilePos.to_index, getTile, getSunTile, List.getD, seqOption,
          NeighborDirection.collection, List.enum, List.enumFrom, List.filterMap,
          exMapC6, exTsC6, exSunVar, Settings.zero]
      rw [hts]
      norm_num [exMapC6, exMapC6', Sun.State.get_tiles, Intensity.iter, exSunVar,
        List.range_succ])
    (by norm_num [exMapC6, exSunVar])

end HexPlant
